import Mathlib

/-!
Shallow embedding of the `network_socket` library (net_socket.h / net_socket.cc):
the socket lifecycle state machine, configuration setters, timeout bookkeeping,
the single-attempt and exact-size receive algorithms, the fault-injected send,
and the `address` value type over its raw `sockaddr_storage` bytes.

Modelling conventions:
* C++ exceptions become `Except Err`; a function that throws before mutating
  is modelled as returning `.error _` (the state argument is untouched).
* The platform collaborators (`::recv`, `::send`, `::accept`, `select`) are
  modelled by explicit event/outcome parameters.
* `double` timeout arithmetic is modelled over `Rat`, with
  `static_cast<long>` of a non-negative value as `Int.floor`.
* Machine integers are `Int`/`Nat`; no width wrapping is relevant on the
  modelled paths.
-/

namespace NetSocket

/-- `net_socket::network_protocol` enum: `{ANY, IPv4, IPv6}`. -/
inductive NetworkProtocol where
  | ANY
  | IPv4
  | IPv6
  deriving DecidableEq, Repr

/-- `net_socket::transport_protocol` enum: `{UDP, TCP}`. -/
inductive TransportProtocol where
  | UDP
  | TCP
  deriving DecidableEq, Repr

/-- Error kinds, following the throw sites of net_socket.cc and the
taxonomy used by its messages: `std::invalid_argument` (bad enum/scalar),
the lifecycle-check `std::runtime_error`s ("Unable to ... open socket"),
the `std::runtime_error`s wrapping resolver/platform diagnostics
(`strerror`/`gai_strerror` text), `timeout_exception`, and the address
format/family `std::runtime_error`s.  `wouldBlock` is a model artifact
standing for a platform call that would block with no event available. -/
inductive Err where
  | invalidConfig
  | illegalState
  | resource
  | timeout
  | formatErr
  | wouldBlock
  deriving DecidableEq, Repr

/-- The private state of `net_socket` (net_socket.h lines 146-155 of the
final header): descriptor, protocols, passive/connected flags, backlog,
timeout (`_do_timeout` plus a `struct timeval` as seconds/microseconds),
and default receive size.  `_drop_rate` is a per-class constant (15) and
`_rng` is passed explicitly to `packet_error_send`. -/
structure SockState where
  sock_desc : Int
  net_proto : NetworkProtocol
  trans_proto : TransportProtocol
  passive : Bool
  backlog : Int
  connected : Bool
  do_timeout : Bool
  timeout_sec : Int
  timeout_usec : Int
  recv_size : Nat
  deriving DecidableEq, Repr

/-- Member initializers of `net_socket`: closed descriptor, ANY/TCP,
not passive, backlog 5, not connected, no timeout, receive size 1400. -/
def initSock : SockState :=
  { sock_desc := -1
    net_proto := .ANY
    trans_proto := .TCP
    passive := false
    backlog := 5
    connected := false
    do_timeout := false
    timeout_sec := 0
    timeout_usec := 0
    recv_size := 1400 }

/-- `net_socket::net_socket(net, tran)`: rejects any transport other than
TCP with `std::invalid_argument`; every value of the three-constructor
network enum passes the family check. -/
def net_socket_mk (net : NetworkProtocol) (tran : TransportProtocol) :
    Except Err SockState :=
  if tran ≠ .TCP then .error .invalidConfig
  else .ok { initSock with net_proto := net, trans_proto := tran }

/-- `net_socket::set_network_protocol` (net_socket.cc 210-228): illegal on a
passive or connected socket; otherwise stores the protocol (all three enum
values are accepted; the `default:` branch is unreachable in-type). -/
def set_network_protocol (st : SockState) (np : NetworkProtocol) :
    Except Err SockState :=
  if st.passive || st.connected then .error .illegalState
  else .ok { st with net_proto := np }

/-- `net_socket::set_transport_protocol` (net_socket.cc 230-250): illegal on
a passive or connected socket; UDP is rejected as invalid configuration;
TCP is stored. -/
def set_transport_protocol (st : SockState) (tp : TransportProtocol) :
    Except Err SockState :=
  if st.passive || st.connected then .error .illegalState
  else
    match tp with
    | .UDP => .error .invalidConfig
    | .TCP => .ok { st with trans_proto := tp }

/-- `net_socket::set_backlog` (net_socket.cc 252-265): rejects negative
values first (`std::invalid_argument`), then rejects a *passively opened*
socket (`std::runtime_error`); note there is no `_connected` check. -/
def set_backlog (st : SockState) (b : Int) : Except Err SockState :=
  if b < 0 then .error .invalidConfig
  else if st.passive then .error .illegalState
  else .ok { st with backlog := b }

/-- `net_socket::get_timeout` (net_socket.cc 267-274): 0 when disabled,
otherwise `tv_sec + tv_usec/1e6`. -/
def get_timeout (st : SockState) : Rat :=
  if st.do_timeout then (st.timeout_sec : Rat) + (st.timeout_usec : Rat) / 1000000
  else 0

/-- `net_socket::set_timeout` (net_socket.cc 276-293): negative values raise
`std::invalid_argument` before any mutation; zero disables the timeout and
zeroes the `timeval`; a positive value enables the timeout with
`tv_sec = (long)s` and `tv_usec = (long)((s - tv_sec)*1e6)` (truncation,
which for non-negative values is `Int.floor`). -/
def set_timeout (st : SockState) (s : Rat) : Except Err SockState :=
  if s < 0 then .error .invalidConfig
  else if s = 0 then
    .ok { st with do_timeout := false, timeout_sec := 0, timeout_usec := 0 }
  else
    .ok { st with
      do_timeout := true
      timeout_sec := ⌊s⌋
      timeout_usec := ⌊(s - (⌊s⌋ : Rat)) * 1000000⌋ }

/-- `net_socket::clear_timeout` (header, inline): only clears `_do_timeout`. -/
def clear_timeout (st : SockState) : SockState :=
  { st with do_timeout := false }

/-- `net_socket::timeout_is_set` (header, inline). -/
def timeout_is_set (st : SockState) : Bool :=
  st.do_timeout

/-- `net_socket::set_recv_size` (header, inline): unconditional store. -/
def set_recv_size (st : SockState) (s : Nat) : SockState :=
  { st with recv_size := s }

/-- `net_socket::close` (net_socket.cc 421-428): if a descriptor is held,
release it and clear both lifecycle flags; otherwise do nothing. -/
def close (st : SockState) : SockState :=
  if st.sock_desc ≠ -1 then
    { st with sock_desc := -1, passive := false, connected := false }
  else st

/-- `net_socket::copy(other)` with `other ≠ nullptr` (net_socket.cc 586-612),
the body of copy construction and copy assignment: if either side is passive
or connected it throws (before mutating); otherwise configuration fields are
copied and the destination is left closed (descriptor -1, flags cleared). -/
def copy (dst src : SockState) : Except Err SockState :=
  if dst.passive || src.passive || dst.connected || src.connected then
    .error .illegalState
  else
    .ok { net_proto := src.net_proto
          trans_proto := src.trans_proto
          backlog := src.backlog
          do_timeout := src.do_timeout
          timeout_sec := src.timeout_sec
          timeout_usec := src.timeout_usec
          recv_size := src.recv_size
          sock_desc := -1
          passive := false
          connected := false }

/-- `net_socket::copy(nullptr)` (net_socket.cc 600-611): reset to the
default configuration and closed state; used on the source of a move. -/
def copy_default : SockState := initSock

/-- `net_socket::move` (net_socket.cc 614-625): the destination takes every
field of the source (descriptor included) and the source is reset.  Returns
(destination, source) after the move. -/
def move (src : SockState) : SockState × SockState :=
  (src, copy_default)

/-- One observable behaviour of the platform on a receive attempt:
`ready n` — `select` (when consulted) reports readiness and `::recv`
returns `min n max_size` bytes (`n = 0` is the peer's orderly shutdown);
`notReady` — no data becomes ready within the configured deadline;
`errEv` — the platform call fails (returns -1). -/
inductive NetEvent where
  | ready (n : Nat)
  | notReady
  | errEv
  deriving DecidableEq, Repr

/-- `net_socket::recv(void*, size_t)` (net_socket.cc 499-533): illegal when
not connected; a zero-size request returns 0 at once (no event consumed);
with a timeout configured, a `notReady` event raises `timeout_exception`;
a failing platform call raises a resource error; a zero-byte read calls
`close()` and returns 0; otherwise the byte count is returned with the
state untouched.  Returns (bytes, state after, remaining trace). -/
def recv (st : SockState) (max_size : Nat) (tr : List NetEvent) :
    Except Err (Nat × SockState × List NetEvent) :=
  if !st.connected then .error .illegalState
  else if max_size = 0 then .ok (0, st, tr)
  else
    match tr with
    | [] => .error .wouldBlock
    | .notReady :: _ =>
        if st.do_timeout then .error .timeout else .error .wouldBlock
    | .errEv :: _ => .error .resource
    | .ready n :: rest =>
        let ret := min n max_size
        if ret = 0 then .ok (0, close st, rest)
        else .ok (ret, st, rest)

/-- The `while( rcvd < exact_size )` loop of `net_socket::recv_all`
(net_socket.cc 558-564): accumulate single-attempt receives, stopping on a
zero-byte result; any receive error propagates. -/
def recvAllLoop (st : SockState) (exact rcvd : Nat) (tr : List NetEvent) :
    Except Err (Nat × SockState × List NetEvent) :=
  if h : rcvd < exact then
    match recv st (exact - rcvd) tr with
    | .error e => .error e
    | .ok (rs, st', tr') =>
        if hz : rs = 0 then .ok (rcvd, st', tr')
        else recvAllLoop st' exact (rcvd + rs) tr'
  else .ok (rcvd, st, tr)
  termination_by exact - rcvd
  decreasing_by omega

/-- `net_socket::recv_all(void*, size_t)` (net_socket.cc 551-567): illegal
when not connected, then the accumulation loop from zero. -/
def recv_all (st : SockState) (exact : Nat) (tr : List NetEvent) :
    Except Err (Nat × SockState × List NetEvent) :=
  if !st.connected then .error .illegalState
  else recvAllLoop st exact 0 tr

/-- Outcome of one `::send` call: `none` for -1, `some n` for n bytes. -/
def SendOutcome := Option Nat

/-- `net_socket::send(const void*, size_t)` (net_socket.cc 430-441): illegal
when not connected; a failing platform send raises a resource error;
otherwise the platform's byte count is returned. -/
def send (st : SockState) (max_size : Nat) (outcome : Option Nat) :
    Except Err Nat :=
  if !st.connected then .error .illegalState
  else
    match outcome with
    | none => .error .resource
    | some n => .ok n

/-- The `_drop_rate` member constant: 15 percent. -/
def drop_rate : Nat := 15

/-- `net_socket::packet_error_send(const void*, size_t)` (net_socket.cc
451-470): the connected check is made up front (the drop may bypass
`send()` entirely); then one value is drawn from the socket's private
generator (`dist(*_rng)`, uniform on 1..100, modelled as the head of the
stream `draws`); a draw `≤ _drop_rate` reports `max_size` as sent without
touching the transport, otherwise the ordinary `send` is delegated to.
Returns the result together with the advanced generator. -/
def packet_error_send (st : SockState) (draws : Nat → Nat) (max_size : Nat)
    (outcome : Option Nat) : Except Err (Nat × (Nat → Nat)) :=
  if !st.connected then .error .illegalState
  else if draws 0 ≤ drop_rate then .ok (max_size, fun i => draws (i + 1))
  else
    match send st max_size outcome with
    | .error e => .error e
    | .ok n => .ok (n, fun i => draws (i + 1))

/-- A descriptor produced by a successful `socket()`/bind/connect loop:
the loops `continue` past `socket() == -1`, so the descriptor kept on the
success path is never -1. -/
def ValidFd := { i : Int // i ≠ -1 }

/-- `net_socket::listen(host, service)` (net_socket.cc 295-348): throws
(illegal state) when a descriptor is already held; the resolver and the
socket/bind loop are the platform collaborator — `none` stands for
resolver failure, bind-loop exhaustion, or a failing `::listen`, all
raised as resource errors; on success the bound descriptor is stored and
the socket becomes passive. -/
def listen (st : SockState) (outcome : Option ValidFd) :
    Except Err SockState :=
  if st.sock_desc ≠ -1 then .error .illegalState
  else
    match outcome with
    | none => .error .resource
    | some fd => .ok { st with sock_desc := fd.val, passive := true }

/-- `net_socket::connect(host, service)` (net_socket.cc 362-402): throws
(illegal state) on a passively opened socket; resolver failure or
connect-loop exhaustion (`none`) raises a resource error; on success the
connected descriptor is stored and the connected flag set. -/
def connect (st : SockState) (outcome : Option ValidFd) :
    Except Err SockState :=
  if st.passive then .error .illegalState
  else
    match outcome with
    | none => .error .resource
    | some fd => .ok { st with sock_desc := fd.val, connected := true }

/-- `net_socket::accept` (net_socket.cc 408-419): no lifecycle check is
made; the platform `::accept` result `new_s` is tested against -1, and -1
raises a `std::runtime_error` carrying `strerror(errno)` — a resource
error; otherwise a brand-new socket is built with `net_socket(_net_proto,
_trans_proto)` and given the accepted descriptor and the connected flag.
Returns (original socket, new socket). -/
def accept (st : SockState) (new_s : Int) :
    Except Err (SockState × SockState) :=
  if new_s = -1 then .error .resource
  else
    .ok (st,
      { initSock with
          net_proto := st.net_proto
          trans_proto := st.trans_proto
          sock_desc := new_s
          connected := true })

/-- Size resolution of `send(const std::string&, size_t)` (net_socket.cc
443-449): `if( (max_size == 0) || (max_size > data.length()) ) max_size =
data.length();`. -/
def send_string_size (len max_size : Nat) : Nat :=
  if max_size = 0 || len < max_size then len else max_size

/-- Size resolution of the template `send(const std::vector<T>&, size_t)`
(net_socket_templates.h 7-14): zero means the vector's byte size. -/
def send_vector_size (bytes max_size : Nat) : Nat :=
  if max_size = 0 then bytes else max_size

/-- Size resolution of `recv(std::string&, size_t)` (net_socket.cc 535-543):
zero means the string's length, or `_recv_size` when it is empty. -/
def recv_string_size (st : SockState) (len max_size : Nat) : Nat :=
  if max_size = 0 then
    if len = 0 then st.recv_size else len
  else max_size

/-- Size resolution of `recv_all(std::string&, size_t)` (net_socket.cc
569-577): same rule as the string `recv`. -/
def recv_all_string_size (st : SockState) (len exact : Nat) : Nat :=
  if exact = 0 then
    if len = 0 then st.recv_size else len
  else exact

/-- Size resolution of the template `recv(std::vector<T>&, size_t)`
(net_socket_templates.h 31-43), for a vector of `count` elements each of
`eltSize` bytes: zero means `_recv_size` on an empty vector and the byte
size otherwise. -/
def recv_vector_size (st : SockState) (count eltSize max_size : Nat) : Nat :=
  if max_size = 0 then
    if count = 0 then st.recv_size else count * eltSize
  else max_size

/-- Size resolution of the template `recv_all(std::vector<T>&, size_t)`
(net_socket_templates.h 53-66), for a vector of `count` elements each of
`eltSize` bytes: same rule as the vector `recv` — zero means `_recv_size`
on an empty vector and the byte size otherwise. -/
def recv_all_vector_size (st : SockState) (count eltSize exact : Nat) : Nat :=
  if exact = 0 then
    if count = 0 then st.recv_size else count * eltSize
  else exact

/-- The size-resolution rule as §4.4 of the specification words it:
"(1) an explicit non-zero size argument, (2) the buffer's current
non-empty size, (3) the socket's configured default chunk size."  Stated
separately so the overloads above can be compared against it. -/
def spec_priority_size (chunk len max_size : Nat) : Nat :=
  if max_size ≠ 0 then max_size
  else if len ≠ 0 then len
  else chunk

/-- The 128 raw bytes of the `struct sockaddr_storage addr` member of
`address`.  Byte-level layout facts used below (Linux/x86-64, little
endian): `ss_family`/`sin_family`/`sin6_family` occupy bytes 0-1;
`sin_port` and `sin6_port` both occupy bytes 2-3; `sin_addr` occupies
bytes 4-7; `sin6_flowinfo` bytes 4-7, `sin6_addr` bytes 8-23,
`sin6_scope_id` bytes 24-27. -/
def Storage := Fin 128 → Nat

instance : DecidableEq Storage := by
  unfold Storage
  infer_instance

/-- `AF_INET` on Linux. -/
def AF_INET : Nat := 2

/-- `AF_INET6` on Linux. -/
def AF_INET6 : Nat := 10

/-- The `ss_family` field read back from the two family bytes. -/
def famOf (a : Storage) : Nat :=
  a 0 + 256 * a 1

/-- `address::address()` (net_socket.cc 14-17): zeroed storage with
`ss_family = AF_INET`. -/
def address_default : Storage :=
  fun i => if i.val = 0 then AF_INET else 0

/-- The `memset(&addr,0); addr.ss_family = f; p->sin_port = old_port;`
sequence performed by `set_address` on a family change (net_socket.cc
146-152 and 157-163): everything zeroed, the family bytes set, and the
port bytes (offsets 2-3, shared by `sin_port` and `sin6_port`) restored
from the old storage. -/
def reset_to_family (a : Storage) (f : Nat) : Storage :=
  fun i =>
    if i.val = 0 then f % 256
    else if i.val = 1 then f / 256 % 256
    else if i.val = 2 ∨ i.val = 3 then a i
    else 0

/-- `memcpy(&p4->sin_addr, &tmp4, 4)`: write the parsed IPv4 bytes at
offsets 4-7. -/
def copy_v4 (a : Storage) (b : Fin 4 → Nat) : Storage :=
  fun i => if h : 4 ≤ i.val ∧ i.val < 8 then b ⟨i.val - 4, by omega⟩ else a i

/-- `memcpy(&p6->sin6_addr, &tmp6, 16)`: write the parsed IPv6 bytes at
offsets 8-23. -/
def copy_v6 (a : Storage) (b : Fin 16 → Nat) : Storage :=
  fun i => if h : 8 ≤ i.val ∧ i.val < 24 then b ⟨i.val - 8, by omega⟩ else a i

/-- `address::set_address` (net_socket.cc 133-167).  The two `inet_pton`
parses are inputs: `is4`/`is6` hold the parsed bytes when the text parses
as the respective family.  If neither parses, the function throws before
touching `addr` (the check at lines 142-143 precedes every write), so the
error case carries no mutation.  A successful IPv4 parse (checked first)
resets the storage when the family changes, then copies the four address
bytes; the IPv6 branch is symmetric. -/
def set_address (a : Storage) (is4 : Option (Fin 4 → Nat))
    (is6 : Option (Fin 16 → Nat)) : Except Err Storage :=
  match is4, is6 with
  | none, none => .error .formatErr
  | some b4, _ =>
      let a' := if famOf a ≠ AF_INET then reset_to_family a AF_INET else a
      .ok (copy_v4 a' b4)
  | none, some b6 =>
      let a' := if famOf a ≠ AF_INET6 then reset_to_family a AF_INET6 else a
      .ok (copy_v6 a' b6)

/-- `address::operator=(const struct sockaddr&)` (net_socket.cc 47-55):
the generic 16-byte `sockaddr` (2 family bytes + 14 data bytes) is
accepted only with family `AF_INET`; any other family throws.  On success
the storage is zeroed and the 16 bytes copied in. -/
def assign_sockaddr (fam : Nat) (data : Fin 14 → Nat) : Except Err Storage :=
  if fam ≠ AF_INET then .error .formatErr
  else
    .ok fun i =>
      if i.val = 0 then fam % 256
      else if i.val = 1 then fam / 256 % 256
      else if h : 2 ≤ i.val ∧ i.val < 16 then data ⟨i.val - 2, by omega⟩
      else 0

/-- `address::operator=(const struct sockaddr_storage&)` (net_socket.cc
57-64): accepts family `AF_INET` or `AF_INET6` and copies the whole
128-byte storage. -/
def assign_sockaddr_storage (s : Storage) : Except Err Storage :=
  if famOf s ≠ AF_INET ∧ famOf s ≠ AF_INET6 then .error .formatErr
  else .ok s

/-- `address::operator=(const struct sockaddr_in6&)` (net_socket.cc
76-84): the 28-byte `sockaddr_in6` must carry family `AF_INET6`; on
success the storage is zeroed and the 28 bytes copied in. -/
def assign_sockaddr_in6 (s : Fin 28 → Nat) : Except Err Storage :=
  if s 0 + 256 * s 1 ≠ AF_INET6 then .error .formatErr
  else .ok fun i => if h : i.val < 28 then s ⟨i.val, h⟩ else 0

/-- The storage after `set_address` returns or throws: the throw at
net_socket.cc 142-143 happens before any write to `addr`, so on the error
path the stored bytes are exactly the old ones. -/
def set_address_post (a : Storage) (is4 : Option (Fin 4 → Nat))
    (is6 : Option (Fin 16 → Nat)) : Storage :=
  match set_address a is4 is6 with
  | .ok r => r
  | .error _ => a

/-- A connected socket holding descriptor 4, used to instantiate the
theorems below at a concrete state. -/
def connSock : SockState :=
  { initSock with sock_desc := 4, connected := true }

/-- The socket states reachable through the public operations of
`net_socket`: construction, the configuration setters, timeout
operations, close, listen, connect, single-attempt and exact-size
receive, copy, move, and both sockets involved in accept.  The platform
collaborator outcomes are universally quantified in each constructor. -/
inductive Reachable : SockState → Prop where
  | construct {net tran st} :
      net_socket_mk net tran = .ok st → Reachable st
  | step_set_net {st np st'} : Reachable st →
      set_network_protocol st np = .ok st' → Reachable st'
  | step_set_trans {st tp st'} : Reachable st →
      set_transport_protocol st tp = .ok st' → Reachable st'
  | step_set_backlog {st b st'} : Reachable st →
      set_backlog st b = .ok st' → Reachable st'
  | step_set_timeout {st s st'} : Reachable st →
      set_timeout st s = .ok st' → Reachable st'
  | step_clear_timeout {st} : Reachable st → Reachable (clear_timeout st)
  | step_set_recv_size {st n} : Reachable st → Reachable (set_recv_size st n)
  | step_close {st} : Reachable st → Reachable (close st)
  | step_listen {st outcome st'} : Reachable st →
      listen st outcome = .ok st' → Reachable st'
  | step_connect {st outcome st'} : Reachable st →
      connect st outcome = .ok st' → Reachable st'
  | step_recv {st m tr n st' tr'} : Reachable st →
      recv st m tr = .ok (n, st', tr') → Reachable st'
  | step_recv_all {st e tr n st' tr'} : Reachable st →
      recv_all st e tr = .ok (n, st', tr') → Reachable st'
  | step_copy {dst src st'} : Reachable dst → Reachable src →
      copy dst src = .ok st' → Reachable st'
  | step_move_dst {src} : Reachable src → Reachable (move src).1
  | step_move_src {src} : Reachable src → Reachable (move src).2
  | step_accept_orig {st new_s a b} : Reachable st →
      accept st new_s = .ok (a, b) → Reachable a
  | step_accept_new {st new_s a b} : Reachable st →
      accept st new_s = .ok (a, b) → Reachable b

/-! ## Theorems -/

/-- C1 counterexample: `set_backlog` on a socket that is connected (and not
passive) succeeds, where the claim demands an illegal-state error — the
code checks only `_passive` (net_socket.cc 259). -/
theorem C1_counterexample :
    set_backlog connSock 7 = .ok { connSock with backlog := 7 } ∧
    set_backlog connSock 7 ≠ .error .illegalState := by
  constructor
  · rfl
  · intro h
    simp [set_backlog, connSock, initSock] at h

/-- C1 (amended): on a passive or connected socket, `set_network_protocol`
and `set_transport_protocol` raise illegal-state, and copying to or from
such a socket raises illegal-state; `set_backlog` (with a non-negative
argument) raises illegal-state exactly when the socket is passive — a
merely connected socket accepts it; on sockets that are neither passive
nor connected all these operations succeed. -/
theorem C1_amended (st src : SockState) (np : NetworkProtocol)
    (tp : TransportProtocol) (b : Int) (hb : 0 ≤ b) :
    ((st.passive = true ∨ st.connected = true) →
       set_network_protocol st np = .error .illegalState ∧
       set_transport_protocol st tp = .error .illegalState ∧
       copy st src = .error .illegalState ∧
       copy src st = .error .illegalState) ∧
    (st.passive = true → set_backlog st b = .error .illegalState) ∧
    (st.passive = false → set_backlog st b = .ok { st with backlog := b }) ∧
    (st.passive = false → st.connected = false → src.passive = false →
       src.connected = false →
       set_network_protocol st np = .ok { st with net_proto := np } ∧
       set_transport_protocol st .TCP = .ok { st with trans_proto := .TCP } ∧
       ∃ r, copy st src = .ok r) := by
  have hb' : ¬ b < 0 := not_lt.mpr hb
  refine ⟨?_, ?_, ?_, ?_⟩
  · intro h
    have hor : (st.passive || st.connected) = true := by
      rcases h with h | h <;> simp [h]
    refine ⟨?_, ?_, ?_, ?_⟩
    · simp [set_network_protocol, hor]
    · rcases tp with _ | _ <;> simp [set_transport_protocol, hor]
    · unfold copy; rcases h with h | h <;> simp [h]
    · unfold copy; rcases h with h | h <;> simp [h]
  · intro hp; simp [set_backlog, hp, hb']
  · intro hp; simp [set_backlog, hp, hb']
  · intro h1 h2 h3 h4
    refine ⟨?_, ?_, ?_⟩
    · simp [set_network_protocol, h1, h2]
    · simp [set_transport_protocol, h1, h2]
    · exact ⟨⟨-1, src.net_proto, src.trans_proto, false, src.backlog, false,
        src.do_timeout, src.timeout_sec, src.timeout_usec, src.recv_size⟩,
        by simp [copy, h1, h2, h3, h4]⟩

/-- C1 witness: the amended claim applied to a concrete passive socket. -/
theorem C1_amended_witness :
    set_backlog { initSock with passive := true, sock_desc := 3 } 7 =
      .error .illegalState :=
  (C1_amended { initSock with passive := true, sock_desc := 3 } initSock
    .IPv6 .UDP 7 (by decide)).2.1 rfl

/-- C4 counterexample: the string `send` overload resolves an explicit
non-zero size of 5 against a 2-byte buffer to 2 (net_socket.cc 444-446),
not to the explicit argument as the claim requires. -/
theorem C4_counterexample :
    send_string_size 2 5 = 2 ∧ (2 : Nat) ≠ 5 := by decide

/-- C4 (amended): the receive overloads (string and vector) follow the
priority (explicit non-zero size, else non-empty buffer size, else the
configured default chunk size); the send overloads use the explicit
non-zero size except that the string overload clamps it to the buffer
length when it exceeds it, and with no explicit size they use the
buffer's size even when it is zero (the chunk-size fallback applies only
to receives). -/
theorem C4_amended (st : SockState) (len m count eltSize bytes : Nat)
    (he : 0 < eltSize) :
    recv_string_size st len m = spec_priority_size st.recv_size len m ∧
    recv_all_string_size st len m = spec_priority_size st.recv_size len m ∧
    recv_vector_size st count eltSize m =
      spec_priority_size st.recv_size (count * eltSize) m ∧
    recv_all_vector_size st count eltSize m =
      spec_priority_size st.recv_size (count * eltSize) m ∧
    (m ≠ 0 → m ≤ len → send_string_size len m = m) ∧
    (len < m → send_string_size len m = len) ∧
    send_string_size len 0 = len ∧
    (m ≠ 0 → send_vector_size bytes m = m) ∧
    send_vector_size bytes 0 = bytes := by
  refine ⟨?_, ?_, ?_, ?_, ?_, ?_, ?_, ?_, ?_⟩
  · by_cases hm : m = 0 <;> by_cases hl : len = 0 <;>
      simp [recv_string_size, spec_priority_size, hm, hl]
  · by_cases hm : m = 0 <;> by_cases hl : len = 0 <;>
      simp [recv_all_string_size, spec_priority_size, hm, hl]
  · have he' : eltSize ≠ 0 := Nat.pos_iff_ne_zero.mp he
    by_cases hm : m = 0 <;> by_cases hc : count = 0 <;>
      simp [recv_vector_size, spec_priority_size, hm, hc, Nat.mul_eq_zero, he']
  · have he' : eltSize ≠ 0 := Nat.pos_iff_ne_zero.mp he
    by_cases hm : m = 0 <;> by_cases hc : count = 0 <;>
      simp [recv_all_vector_size, spec_priority_size, hm, hc, Nat.mul_eq_zero,
        he']
  · intro hm hle
    simp [send_string_size, hm, not_lt.mpr hle]
  · intro hlt
    simp [send_string_size, hlt]
  · simp [send_string_size]
  · intro hm; simp [send_vector_size, hm]
  · simp [send_vector_size]

/-- C4 witness: the amended claim applied at concrete sizes. -/
theorem C4_amended_witness :
    recv_string_size initSock 3 2 = spec_priority_size initSock.recv_size 3 2 :=
  (C4_amended initSock 3 2 0 1 4 (by decide)).1

/-- C5: `packet_error_send` raises illegal-state on an unconnected socket
whatever the generator holds; on a connected socket a draw within the
drop rate reports the full requested size without consulting the
underlying send (the result is independent of the send outcome), and any
other draw delegates to the ordinary single-attempt `send`. -/
theorem C5_packet_error_send (st : SockState) (draws : Nat → Nat) (m : Nat)
    (outcome outcome' : Option Nat) :
    (st.connected = false →
       packet_error_send st draws m outcome = .error .illegalState) ∧
    (st.connected = true → draws 0 ≤ drop_rate →
       packet_error_send st draws m outcome = .ok (m, fun i => draws (i + 1)) ∧
       packet_error_send st draws m outcome =
         packet_error_send st draws m outcome') ∧
    (st.connected = true → drop_rate < draws 0 →
       packet_error_send st draws m outcome =
         (send st m outcome).map fun n => (n, fun i => draws (i + 1))) := by
  refine ⟨?_, ?_, ?_⟩
  · intro hconn
    simp [packet_error_send, hconn]
  · intro hconn hdraw
    constructor <;> simp [packet_error_send, hconn, hdraw]
  · intro hconn hdraw
    have hd' : ¬ draws 0 ≤ drop_rate := not_le.mpr hdraw
    cases outcome <;> simp [packet_error_send, send, hconn, hd', Except.map]

/-- C5 witness: a connected socket with a dropping draw reports the
requested 9 bytes as sent. -/
theorem C5_witness :
    packet_error_send connSock (fun _ => 1) 9 (some 9) =
      .ok (9, fun _ => 1) :=
  ((C5_packet_error_send connSock (fun _ => 1) 9 (some 9) none).2.1
    rfl (by decide)).1

/-- C6 counterexample: `set_timeout` stores whole microseconds, so setting
half a microsecond reads back as 0, where the claim demands that get
return the value set. -/
theorem C6_counterexample :
    (set_timeout initSock (1 / 2000000)).map get_timeout = .ok 0 ∧
    (1 / 2000000 : Rat) ≠ 0 := by
  constructor
  · simp [set_timeout, get_timeout, Except.map]
    rw [Int.fract_eq_self.mpr ⟨by norm_num, by norm_num⟩]
    norm_num
  · norm_num

/-- C6 (amended): for t ≥ 0 the stored timeout reads back as the
microsecond truncation `⌊t⌋ + ⌊(t − ⌊t⌋)·10^6⌋/10^6` (equal to t exactly
when t is a whole number of microseconds) and `timeout_is_set` reflects
t > 0; a negative t raises invalid-configuration before any mutation;
setting 0 is observationally equivalent to `clear_timeout` through
`get_timeout` and `timeout_is_set`. -/
theorem C6_amended (st : SockState) (t : Rat) :
    (0 ≤ t →
       (set_timeout st t).map get_timeout =
         .ok ((⌊t⌋ : Rat) + (⌊(t - (⌊t⌋ : Rat)) * 1000000⌋ : Rat) / 1000000) ∧
       (set_timeout st t).map timeout_is_set = .ok (decide (0 < t))) ∧
    (t < 0 → set_timeout st t = .error .invalidConfig) ∧
    (set_timeout st 0).map get_timeout = .ok (get_timeout (clear_timeout st)) ∧
    (set_timeout st 0).map timeout_is_set =
      .ok (timeout_is_set (clear_timeout st)) := by
  refine ⟨?_, ?_, ?_, ?_⟩
  · intro ht
    by_cases h0 : t = 0
    · subst h0
      constructor <;> simp [set_timeout, get_timeout, timeout_is_set, Except.map]
    · have hpos : 0 < t := lt_of_le_of_ne ht (Ne.symm h0)
      have hnn : ¬ t < 0 := not_lt.mpr ht
      constructor
      · simp [set_timeout, hnn, h0, get_timeout, Except.map]
      · simp [set_timeout, hnn, h0, timeout_is_set, Except.map, hpos]
  · intro ht
    simp [set_timeout, ht]
  · simp [set_timeout, get_timeout, clear_timeout, Except.map]
  · simp [set_timeout, timeout_is_set, clear_timeout, Except.map]

/-- C6 witness: the amended claim applied at t = 1/2 second. -/
theorem C6_amended_witness :
    (set_timeout initSock (1 / 2)).map get_timeout =
      .ok ((⌊(1 / 2 : Rat)⌋ : Rat) +
        (⌊((1 / 2 : Rat) - (⌊(1 / 2 : Rat)⌋ : Rat)) * 1000000⌋ : Rat) / 1000000) :=
  ((C6_amended initSock (1 / 2)).1 (by norm_num)).1

/-- C3: a zero-byte underlying read on a connected socket (with a live
descriptor and a non-zero request) closes the socket — descriptor -1,
neither connected nor passive — and returns zero without error. -/
theorem C3_recv_peer_close (st : SockState) (m : Nat) (tr : List NetEvent)
    (hconn : st.connected = true) (hdesc : st.sock_desc ≠ -1) (hm : m ≠ 0) :
    recv st m (.ready 0 :: tr) = .ok (0, close st, tr) ∧
    (close st).sock_desc = -1 ∧
    (close st).connected = false ∧
    (close st).passive = false := by
  refine ⟨?_, ?_, ?_, ?_⟩
  · simp [recv, hconn, hm]
  · simp [close, hdesc]
  · simp [close, hdesc]
  · simp [close, hdesc]

/-- C3 witness: the peer-close transition at a concrete connected socket. -/
theorem C3_witness :
    recv connSock 5 [.ready 0] = .ok (0, close connSock, []) ∧
    (close connSock).sock_desc = -1 ∧
    (close connSock).connected = false ∧
    (close connSock).passive = false :=
  C3_recv_peer_close connSock 5 [] rfl (by decide) (by decide)

/-- Case analysis of a successful single-attempt `recv` with a non-zero
request: the byte count never exceeds the request, and the state is
either untouched (non-zero read) or closed (zero-byte read). -/
theorem recv_ok_elim {st : SockState} {m n : Nat} {tr tr' : List NetEvent}
    {st' : SockState} (hm : m ≠ 0)
    (h : recv st m tr = .ok (n, st', tr')) :
    n ≤ m ∧ ((n = 0 ∧ st' = close st) ∨ (n ≠ 0 ∧ st' = st)) := by
  cases hc : st.connected with
  | false => simp [recv, hc] at h
  | true =>
    cases tr with
    | nil => simp [recv, hc, hm] at h
    | cons ev rest =>
      cases ev with
      | notReady => cases hdt : st.do_timeout <;> simp [recv, hc, hm, hdt] at h
      | errEv => simp [recv, hc, hm] at h
      | ready k =>
        by_cases hz : min k m = 0
        · have heval : recv st m (.ready k :: rest) = .ok (0, close st, rest) := by
            simp [recv, hc, hm, hz]
          rw [heval] at h
          obtain ⟨h1, h2, _⟩ : (0 : Nat) = n ∧ close st = st' ∧ rest = tr' := by
            simpa using h
          exact ⟨by omega, Or.inl ⟨h1.symm, h2.symm⟩⟩
        · have heval : recv st m (.ready k :: rest) = .ok (min k m, st, rest) := by
            simp [recv, hc, hm, hz]
          rw [heval] at h
          obtain ⟨h1, h2, _⟩ : min k m = n ∧ st = st' ∧ rest = tr' := by
            simpa using h
          exact ⟨by omega, Or.inr ⟨by omega, h2.symm⟩⟩

/-- The accumulation loop of `recv_all` can only finish with the full
requested count and an untouched socket, or a smaller count after a
peer close closed the socket. -/
theorem recvAllLoop_ok_cases (st : SockState) :
    ∀ k exact rcvd tr n st' tr', exact - rcvd ≤ k → rcvd ≤ exact →
      recvAllLoop st exact rcvd tr = .ok (n, st', tr') →
      (n = exact ∧ st' = st) ∨ (rcvd ≤ n ∧ n < exact ∧ st' = close st) := by
  intro k
  induction k with
  | zero =>
    intro exact rcvd tr n st' tr' hk hle h
    have heq : rcvd = exact := by omega
    unfold recvAllLoop at h
    rw [dif_neg (by omega)] at h
    obtain ⟨h1, h2, _⟩ : rcvd = n ∧ st = st' ∧ tr = tr' := by simpa using h
    exact Or.inl ⟨by omega, h2.symm⟩
  | succ k ih =>
    intro exact rcvd tr n st' tr' hk hle h
    unfold recvAllLoop at h
    by_cases hlt : rcvd < exact
    · rw [dif_pos hlt] at h
      cases hr : recv st (exact - rcvd) tr with
      | error e =>
          rw [hr] at h
          exact absurd h (by simp)
      | ok res =>
          obtain ⟨rs, st1, tr1⟩ := res
          rw [hr] at h
          obtain ⟨hrle, hcases⟩ := recv_ok_elim (by omega) hr
          dsimp only at h
          by_cases hz : rs = 0
          · rw [dif_pos hz] at h
            obtain ⟨h1, h2, _⟩ : rcvd = n ∧ st1 = st' ∧ tr1 = tr' := by
              simpa using h
            rcases hcases with ⟨_, hst⟩ | ⟨hne, _⟩
            · exact Or.inr ⟨by omega, by omega, by rw [← h2, hst]⟩
            · exact absurd hz hne
          · rw [dif_neg hz] at h
            rcases hcases with ⟨h0, _⟩ | ⟨_, hst⟩
            · exact absurd h0 hz
            · subst hst
              rcases ih exact (rcvd + rs) tr1 n st' tr' (by omega) (by omega) h
                with ⟨h1, h2⟩ | ⟨h1, h2, h3⟩
              · exact Or.inl ⟨h1, h2⟩
              · exact Or.inr ⟨by omega, h2, h3⟩
    · rw [dif_neg hlt] at h
      obtain ⟨h1, h2, _⟩ : rcvd = n ∧ st = st' ∧ tr = tr' := by simpa using h
      exact Or.inl ⟨by omega, h2.symm⟩

/-- A run of positive ready events too short to fill the request,
followed by a deadline expiry, makes the accumulation loop raise the
timeout: nothing in the loop catches it. -/
theorem recvAllLoop_timeout (st : SockState) (hconn : st.connected = true)
    (hto : st.do_timeout = true) :
    ∀ (chunks : List Nat) (exact rcvd : Nat), (∀ c ∈ chunks, 0 < c) →
      rcvd + chunks.sum < exact →
      recvAllLoop st exact rcvd
        (chunks.map NetEvent.ready ++ [NetEvent.notReady]) =
        .error .timeout := by
  intro chunks
  induction chunks with
  | nil =>
    intro exact rcvd _ hsum
    simp only [List.sum_nil, Nat.add_zero] at hsum
    unfold recvAllLoop
    rw [dif_pos hsum]
    have hrecv : recv st (exact - rcvd) [NetEvent.notReady] = .error .timeout := by
      simp [recv, hconn, hto, show exact - rcvd ≠ 0 by omega]
    simp [hrecv]
  | cons c cs ih =>
    intro exact rcvd hpos hsum
    have hc : 0 < c := hpos c (List.mem_cons_self c cs)
    simp only [List.sum_cons] at hsum
    have hlt : rcvd < exact := by omega
    have hmin : min c (exact - rcvd) = c := by omega
    have hmz : min c (exact - rcvd) ≠ 0 := by omega
    unfold recvAllLoop
    rw [dif_pos hlt]
    have hrecv : recv st (exact - rcvd)
        ((c :: cs).map NetEvent.ready ++ [NetEvent.notReady]) =
        .ok (min c (exact - rcvd), st,
          cs.map NetEvent.ready ++ [NetEvent.notReady]) := by
      simp [recv, hconn, show exact - rcvd ≠ 0 by omega, hmz]
    rw [hrecv]
    dsimp only
    rw [dif_neg hmz, hmin]
    exact ih exact (rcvd + c)
      (fun x hx => hpos x (List.mem_cons_of_mem c hx)) (by omega)

/-- A run of positive ready events too short to fill the request,
followed by a zero-byte (peer-closed) attempt, makes the accumulation
loop stop and return the bytes gathered so far with the socket closed —
no error is raised. -/
theorem recvAllLoop_peer_close (st : SockState) (hconn : st.connected = true) :
    ∀ (chunks : List Nat) (exact rcvd : Nat) (rest : List NetEvent),
      (∀ c ∈ chunks, 0 < c) →
      rcvd + chunks.sum < exact →
      recvAllLoop st exact rcvd
        (chunks.map NetEvent.ready ++ NetEvent.ready 0 :: rest) =
        .ok (rcvd + chunks.sum, close st, rest) := by
  intro chunks
  induction chunks with
  | nil =>
    intro exact rcvd rest _ hsum
    simp only [List.sum_nil, Nat.add_zero] at hsum
    simp only [List.map_nil, List.nil_append]
    unfold recvAllLoop
    rw [dif_pos hsum]
    have hrecv : recv st (exact - rcvd) (NetEvent.ready 0 :: rest) =
        .ok (0, close st, rest) := by
      simp [recv, hconn, show exact - rcvd ≠ 0 by omega]
    rw [hrecv]
    dsimp only
    rw [dif_pos rfl]
    simp
  | cons c cs ih =>
    intro exact rcvd rest hpos hsum
    have hc : 0 < c := hpos c (List.mem_cons_self c cs)
    simp only [List.sum_cons] at hsum
    have hlt : rcvd < exact := by omega
    have hmin : min c (exact - rcvd) = c := by omega
    have hmz : min c (exact - rcvd) ≠ 0 := by omega
    unfold recvAllLoop
    rw [dif_pos hlt]
    have hrecv : recv st (exact - rcvd)
        ((c :: cs).map NetEvent.ready ++ NetEvent.ready 0 :: rest) =
        .ok (min c (exact - rcvd), st,
          cs.map NetEvent.ready ++ NetEvent.ready 0 :: rest) := by
      simp [recv, hconn, show exact - rcvd ≠ 0 by omega, hmz]
    rw [hrecv]
    dsimp only
    rw [dif_neg hmz, hmin]
    rw [ih exact (rcvd + c) rest
      (fun x hx => hpos x (List.mem_cons_of_mem c hx)) (by omega)]
    have hsum' : rcvd + c + cs.sum = rcvd + (c :: cs).sum := by
      simp only [List.sum_cons]
      omega
    rw [hsum']

/-- C2: on a connected socket, `recv_all` either accumulates exactly
`exact` bytes leaving the socket untouched, or stops early at a zero-byte
(peer-closed) attempt; in the peer-closed case (a too-short run of ready
events followed by a zero-byte read) it returns the partial accumulated
count as a normal result — no error is raised — and the socket comes back
closed and no longer connected; a timeout raised by an attempt part-way
through the loop propagates to the caller. -/
theorem C2_recv_all (st : SockState) (hconn : st.connected = true)
    (hdesc : st.sock_desc ≠ -1) :
    (∀ exact tr n st' tr',
       recv_all st exact tr = .ok (n, st', tr') →
       (n = exact ∧ st' = st) ∨
       (n < exact ∧ st'.connected = false ∧ st'.sock_desc = -1)) ∧
    (∀ (exact : Nat) (chunks : List Nat), st.do_timeout = true →
       (∀ c ∈ chunks, 0 < c) →
       chunks.sum < exact →
       recv_all st exact (chunks.map NetEvent.ready ++ [NetEvent.notReady]) =
         .error .timeout) ∧
    (∀ (exact : Nat) (chunks : List Nat) (rest : List NetEvent),
       (∀ c ∈ chunks, 0 < c) →
       chunks.sum < exact →
       recv_all st exact
         (chunks.map NetEvent.ready ++ NetEvent.ready 0 :: rest) =
         .ok (chunks.sum, close st, rest)) ∧
    (close st).connected = false ∧
    (close st).sock_desc = -1 := by
  refine ⟨?_, ?_, ?_, ?_, ?_⟩
  · intro exact tr n st' tr' h
    unfold recv_all at h
    rw [hconn] at h
    simp only [Bool.not_true, Bool.false_eq_true, if_false] at h
    rcases recvAllLoop_ok_cases st exact exact 0 tr n st' tr'
        (by omega) (by omega) h with ⟨h1, h2⟩ | ⟨_, h2, h3⟩
    · exact Or.inl ⟨h1, h2⟩
    · refine Or.inr ⟨h2, ?_, ?_⟩ <;> simp [h3, close, hdesc]
  · intro exact chunks hto hpos hsum
    unfold recv_all
    rw [hconn]
    simp only [Bool.not_true, Bool.false_eq_true, if_false]
    exact recvAllLoop_timeout st hconn hto chunks exact 0 hpos (by omega)
  · intro exact chunks rest hpos hsum
    unfold recv_all
    rw [hconn]
    simp only [Bool.not_true, Bool.false_eq_true, if_false]
    have h := recvAllLoop_peer_close st hconn chunks exact 0 rest hpos
      (by omega)
    simpa using h
  · simp [close, hdesc]
  · simp [close, hdesc]

/-- C2 witness: a 5-byte request served by a 2-byte read and then a
zero-byte (peer-closed) read returns the partial count 2 as a normal
result, with the socket closed. -/
theorem C2_witness :
    recv_all connSock 5 [.ready 2, .ready 0] = .ok (2, close connSock, []) ∧
    (close connSock).connected = false := by
  have h := C2_recv_all connSock rfl (by decide)
  refine ⟨?_, h.2.2.2.1⟩
  have h3 := h.2.2.1 5 [2] [] (by decide) (by decide)
  simpa using h3

/-- C7: `set_address` with neither parse succeeding raises a format error
and leaves the stored bytes untouched; a successful parse that changes
the address family zeroes every byte except the family bytes, the
preserved port bytes (offsets 2-3), and the freshly copied address
bytes. -/
theorem C7_set_address (a : Storage) (b4 : Fin 4 → Nat) (b6 : Fin 16 → Nat) :
    (set_address a none none = .error .formatErr ∧
     set_address_post a none none = a) ∧
    (famOf a ≠ AF_INET →
       set_address a (some b4) none = .ok (set_address_post a (some b4) none) ∧
       set_address_post a (some b4) none ⟨2, by omega⟩ = a ⟨2, by omega⟩ ∧
       set_address_post a (some b4) none ⟨3, by omega⟩ = a ⟨3, by omega⟩ ∧
       set_address_post a (some b4) none ⟨0, by omega⟩ = AF_INET ∧
       set_address_post a (some b4) none ⟨1, by omega⟩ = 0 ∧
       (∀ j : Fin 4,
          set_address_post a (some b4) none ⟨4 + j.val, by omega⟩ = b4 j) ∧
       (∀ i : Fin 128, 8 ≤ i.val → set_address_post a (some b4) none i = 0)) ∧
    (famOf a ≠ AF_INET6 →
       set_address a none (some b6) = .ok (set_address_post a none (some b6)) ∧
       set_address_post a none (some b6) ⟨2, by omega⟩ = a ⟨2, by omega⟩ ∧
       set_address_post a none (some b6) ⟨3, by omega⟩ = a ⟨3, by omega⟩ ∧
       set_address_post a none (some b6) ⟨0, by omega⟩ = AF_INET6 ∧
       set_address_post a none (some b6) ⟨1, by omega⟩ = 0 ∧
       (∀ j : Fin 16,
          set_address_post a none (some b6) ⟨8 + j.val, by omega⟩ = b6 j) ∧
       (∀ i : Fin 128, 4 ≤ i.val → i.val < 8 →
          set_address_post a none (some b6) i = 0) ∧
       (∀ i : Fin 128, 24 ≤ i.val →
          set_address_post a none (some b6) i = 0)) := by
  refine ⟨⟨rfl, rfl⟩, ?_, ?_⟩
  · intro hfam
    have hpost : set_address_post a (some b4) none =
        copy_v4 (reset_to_family a AF_INET) b4 := by
      simp [set_address_post, set_address, hfam]
    refine ⟨by simp [set_address, set_address_post, hfam], ?_, ?_, ?_, ?_, ?_, ?_⟩
    · rw [hpost]; simp [copy_v4, reset_to_family]
    · rw [hpost]; simp [copy_v4, reset_to_family]
    · rw [hpost]; simp [copy_v4, reset_to_family, AF_INET]
    · rw [hpost]; simp [copy_v4, reset_to_family, AF_INET]
    · intro j
      rw [hpost]
      have hj := j.isLt
      simp only [copy_v4]
      rw [dif_pos (by simp; omega)]
      congr 1
      exact Fin.ext (by simp)
    · intro i hi
      rw [hpost]
      simp only [copy_v4]
      rw [dif_neg (by omega)]
      simp only [reset_to_family]
      rw [if_neg (by omega), if_neg (by omega), if_neg (by omega)]
  · intro hfam
    have hpost : set_address_post a none (some b6) =
        copy_v6 (reset_to_family a AF_INET6) b6 := by
      simp [set_address_post, set_address, hfam]
    refine ⟨by simp [set_address, set_address_post, hfam], ?_, ?_, ?_, ?_, ?_, ?_, ?_⟩
    · rw [hpost]; simp [copy_v6, reset_to_family]
    · rw [hpost]; simp [copy_v6, reset_to_family]
    · rw [hpost]; simp [copy_v6, reset_to_family, AF_INET6]
    · rw [hpost]; simp [copy_v6, reset_to_family, AF_INET6]
    · intro j
      rw [hpost]
      have hj := j.isLt
      simp only [copy_v6]
      rw [dif_pos (by simp; omega)]
      congr 1
      exact Fin.ext (by simp)
    · intro i hi1 hi2
      rw [hpost]
      simp only [copy_v6]
      rw [dif_neg (by omega)]
      simp only [reset_to_family]
      rw [if_neg (by omega), if_neg (by omega), if_neg (by omega)]
    · intro i hi
      rw [hpost]
      simp only [copy_v6]
      rw [dif_neg (by omega)]
      simp only [reset_to_family]
      rw [if_neg (by omega), if_neg (by omega), if_neg (by omega)]

/-- C7 witness: setting an IPv6 address on the default (IPv4) address
succeeds, with the post-state as computed. -/
theorem C7_witness :
    set_address address_default none (some fun _ => 7) =
      .ok (set_address_post address_default none (some fun _ => 7)) :=
  ((C7_set_address address_default (fun _ => 0) (fun _ => 7)).2.2
    (by decide)).1

/-- C10: assignment from the generic `struct sockaddr` rejects every
family other than IPv4 with a format error, while the same IPv6 family is
accepted by the `sockaddr_storage` and `sockaddr_in6` overloads. -/
theorem C10_sockaddr_family (fam : Nat) (data : Fin 14 → Nat)
    (s6 : Fin 28 → Nat) (s : Storage) :
    (fam ≠ AF_INET → assign_sockaddr fam data = .error .formatErr) ∧
    (famOf s = AF_INET6 → assign_sockaddr_storage s = .ok s) ∧
    (s6 0 + 256 * s6 1 = AF_INET6 →
       assign_sockaddr_in6 s6 =
         .ok fun i => if h : i.val < 28 then s6 ⟨i.val, h⟩ else 0) := by
  refine ⟨?_, ?_, ?_⟩
  · intro h
    simp [assign_sockaddr, h]
  · intro h
    simp [assign_sockaddr_storage, h, AF_INET, AF_INET6]
  · intro h
    simp [assign_sockaddr_in6, h]

/-- C10 witness: family 10 (`AF_INET6`) through the three overloads. -/
theorem C10_witness :
    assign_sockaddr 10 (fun _ => 0) = .error .formatErr :=
  (C10_sockaddr_family 10 (fun _ => 0)
    (fun i => if i.val = 0 then 10 else 0)
    (fun i => if i.val = 0 then 10 else 0)).1 (by decide)

/-- C8 counterexample: `accept` on the default (non-passive, closed)
socket, where the platform `::accept` necessarily fails, raises a
resource error — not the illegal-state error the claim requires — because
the code performs no passive-state check (net_socket.cc 408-419). -/
theorem C8_counterexample :
    accept initSock (-1) = .error .resource ∧
    accept initSock (-1) ≠ .error .illegalState ∧
    initSock.passive = false := by
  refine ⟨rfl, ?_, rfl⟩
  intro h
  simp [accept] at h

/-- C8 (amended): `accept` makes no passive-state check; a failing
platform accept raises a resource error; a successful one returns the
original socket unchanged together with a brand-new socket holding the
accepted descriptor, connected, not passive, inheriting the network and
transport protocols (and fresh default configuration otherwise). -/
theorem C8_amended (st : SockState) (new_s : Int) :
    (new_s = -1 → accept st new_s = .error .resource) ∧
    (new_s ≠ -1 →
       accept st new_s = .ok (st,
         { initSock with
             net_proto := st.net_proto
             trans_proto := st.trans_proto
             sock_desc := new_s
             connected := true }) ∧
       ∀ a b, accept st new_s = .ok (a, b) →
         a = st ∧ b.connected = true ∧ b.passive = false ∧
         b.net_proto = st.net_proto ∧ b.trans_proto = st.trans_proto ∧
         b.sock_desc = new_s) := by
  constructor
  · intro h
    simp [accept, h]
  · intro h
    have heval : accept st new_s = .ok (st,
        { initSock with
            net_proto := st.net_proto
            trans_proto := st.trans_proto
            sock_desc := new_s
            connected := true }) := by
      simp [accept, h]
    refine ⟨heval, ?_⟩
    intro a b hab
    rw [heval] at hab
    obtain ⟨h1, h2⟩ : st = a ∧ _ = b := by simpa using hab
    subst h1
    subst h2
    simp [initSock]

/-- C8 witness: the amended claim at a passive listening socket and a
successfully accepted descriptor 7. -/
theorem C8_amended_witness :
    accept { initSock with passive := true, sock_desc := 3 } 7 =
      .ok ({ initSock with passive := true, sock_desc := 3 },
        { initSock with
            net_proto := ({ initSock with passive := true, sock_desc := 3 } :
              SockState).net_proto
            trans_proto := ({ initSock with passive := true, sock_desc := 3 } :
              SockState).trans_proto
            sock_desc := 7
            connected := true }) :=
  ((C8_amended { initSock with passive := true, sock_desc := 3 } 7).2
    (by decide)).1

/-- A successful single-attempt `recv` either leaves the state untouched
or closes the socket. -/
theorem recv_ok_state {st : SockState} {m : Nat} {tr : List NetEvent}
    {n : Nat} {st' : SockState} {tr' : List NetEvent}
    (h : recv st m tr = .ok (n, st', tr')) : st' = st ∨ st' = close st := by
  by_cases hm : m = 0
  · subst hm
    cases hc : st.connected with
    | false => simp [recv, hc] at h
    | true =>
        obtain ⟨_, h2, _⟩ : (0 : Nat) = n ∧ st = st' ∧ tr = tr' := by
          simpa [recv, hc] using h
        exact Or.inl h2.symm
  · rcases (recv_ok_elim hm h).2 with ⟨_, h2⟩ | ⟨_, h2⟩
    · exact Or.inr h2
    · exact Or.inl h2

/-- A successful `recv_all` either leaves the state untouched or closes
the socket. -/
theorem recv_all_ok_state {st : SockState} {e : Nat} {tr : List NetEvent}
    {n : Nat} {st' : SockState} {tr' : List NetEvent}
    (h : recv_all st e tr = .ok (n, st', tr')) : st' = st ∨ st' = close st := by
  unfold recv_all at h
  split at h
  · simp at h
  · rcases recvAllLoop_ok_cases st e e 0 tr n st' tr' (by omega) (by omega) h
      with ⟨_, h2⟩ | ⟨_, _, h2⟩
    · exact Or.inl h2
    · exact Or.inr h2

/-- A successful `accept` returns the original state unchanged and a new
socket that is connected, not passive, and holds the (non-negative-one)
accepted descriptor. -/
theorem accept_ok_state {st : SockState} {new_s : Int} {a b : SockState}
    (h : accept st new_s = .ok (a, b)) :
    a = st ∧ b.passive = false ∧ b.connected = true ∧ b.sock_desc = new_s ∧
    new_s ≠ -1 := by
  unfold accept at h
  split at h
  · simp at h
  · next hne =>
      obtain ⟨h1, h2⟩ : st = a ∧ _ = b := by simpa using h
      subst h1
      subst h2
      exact ⟨rfl, rfl, rfl, rfl, hne⟩

/-- `close` preserves the lifecycle invariant. -/
theorem close_inv {st : SockState}
    (ih : (st.passive = false ∨ st.connected = false) ∧
          (st.connected = true → st.sock_desc ≠ -1)) :
    ((close st).passive = false ∨ (close st).connected = false) ∧
    ((close st).connected = true → (close st).sock_desc ≠ -1) := by
  unfold close
  split
  · simp
  · exact ih

/-- Auxiliary invariant carried through the reachability induction: the
two lifecycle flags are never both set, and a connected socket always
holds a live descriptor. -/
theorem reachable_inv {st : SockState} (h : Reachable st) :
    (st.passive = false ∨ st.connected = false) ∧
    (st.connected = true → st.sock_desc ≠ -1) := by
  induction h with
  | construct hmk =>
      unfold net_socket_mk at hmk
      split at hmk
      · exact absurd hmk (by simp)
      · obtain rfl : _ = _ := by simpa using hmk
        simp [initSock]
  | step_set_net hr hok ih =>
      unfold set_network_protocol at hok
      split at hok
      · exact absurd hok (by simp)
      · obtain rfl : _ = _ := by simpa using hok
        simpa using ih
  | step_set_trans hr hok ih =>
      unfold set_transport_protocol at hok
      split at hok
      · exact absurd hok (by simp)
      · split at hok
        · exact absurd hok (by simp)
        · obtain rfl : _ = _ := by simpa using hok
          simpa using ih
  | step_set_backlog hr hok ih =>
      unfold set_backlog at hok
      split at hok
      · exact absurd hok (by simp)
      · split at hok
        · exact absurd hok (by simp)
        · obtain rfl : _ = _ := by simpa using hok
          simpa using ih
  | step_set_timeout hr hok ih =>
      unfold set_timeout at hok
      split at hok
      · exact absurd hok (by simp)
      · split at hok
        · obtain rfl : _ = _ := by simpa using hok
          simpa using ih
        · obtain rfl : _ = _ := by simpa using hok
          simpa using ih
  | step_clear_timeout hr ih =>
      simpa [clear_timeout] using ih
  | step_set_recv_size hr ih =>
      simpa [set_recv_size] using ih
  | step_close hr ih =>
      exact close_inv ih
  | step_listen hr hok ih =>
      rename_i st1 outcome1 st1'
      unfold listen at hok
      split at hok
      · exact absurd hok (by simp)
      · next hdesc =>
          split at hok
          · exact absurd hok (by simp)
          · next fd =>
              obtain rfl : _ = _ := by simpa using hok
              have hdesc2 := not_not.mp hdesc
              have hconn : st1.connected = false := by
                cases hcv : st1.connected with
                | false => rfl
                | true => exact absurd hdesc2 (ih.2 hcv)
              constructor
              · exact Or.inr (by simpa using hconn)
              · intro _
                simpa using fd.property
  | step_connect hr hok ih =>
      rename_i st1 outcome1 st1'
      unfold connect at hok
      split at hok
      · exact absurd hok (by simp)
      · next hp =>
          split at hok
          · exact absurd hok (by simp)
          · next fd =>
              obtain rfl : _ = _ := by simpa using hok
              have hp' : st1.passive = false := by
                cases hpv : st1.passive with
                | false => rfl
                | true => exact absurd hpv hp
              constructor
              · exact Or.inl (by simpa using hp')
              · intro _
                simpa using fd.property
  | step_recv hr hok ih =>
      rcases recv_ok_state hok with rfl | rfl
      · exact ih
      · exact close_inv ih
  | step_recv_all hr hok ih =>
      rcases recv_all_ok_state hok with rfl | rfl
      · exact ih
      · exact close_inv ih
  | step_copy hr1 hr2 hok ih1 ih2 =>
      unfold copy at hok
      split at hok
      · exact absurd hok (by simp)
      · obtain rfl : _ = _ := by simpa using hok
        simp
  | step_move_dst hr ih =>
      simpa [move] using ih
  | step_move_src hr ih =>
      simp [move, copy_default, initSock]
  | step_accept_orig hr hok ih =>
      obtain ⟨h1, _⟩ := accept_ok_state hok
      rw [h1]
      exact ih
  | step_accept_new hr hok ih =>
      obtain ⟨_, hp, hc, hd, hne⟩ := accept_ok_state hok
      constructor
      · exact Or.inl hp
      · intro _
        rw [hd]
        exact hne

/-- C9: in every reachable socket state the passive flag and the
connected flag are never simultaneously true. -/
theorem C9_invariant (st : SockState) (h : Reachable st) :
    ¬(st.passive = true ∧ st.connected = true) := by
  rintro ⟨hp, hc⟩
  rcases (reachable_inv h).1 with h1 | h1 <;> simp_all

/-- C9 witness: the invariant at the freshly constructed socket. -/
theorem C9_witness :
    ¬(initSock.passive = true ∧ initSock.connected = true) :=
  C9_invariant initSock (@Reachable.construct .ANY .TCP initSock rfl)

end NetSocket
